/-
Verification development for the GeoClimate risk navigator (src/app.py).

The scoring model (`compute_route_risk`), its reference tables, the scenario-lab
stress recomputation, and the rule-based response engine (`generate_mock_response`)
are embedded as executable Lean definitions, translated line by line from the
Python source.  Numbers are modelled as exact rationals (ℚ); `round(x, 1)` is
modelled as round-half-to-even to one decimal, which is Python's rounding rule on
exactly-representable values (binary floating-point representation error is not
modelled).  Streamlit session state is passed explicitly as a `SessionCtx` value,
and the ambient `date.today()` read by the engine is an explicit `today` argument.
-/
import Mathlib

set_option maxRecDepth 10000
set_option maxHeartbeats 4000000

unseal Rat.add Rat.mul Rat.ofScientific Rat.inv Rat.sub

namespace GeoClimate

/-! ## Basic string helpers (Python `str.lower`, `str.upper`, `in`) -/

/-- ASCII lower-casing of a string, modelling Python `str.lower` on the ASCII
names and prompts used by the app. -/
def strLower (s : String) : String := ⟨s.data.map Char.toLower⟩

/-- ASCII upper-casing of a string, modelling Python `str.upper`. -/
def strUpper (s : String) : String := ⟨s.data.map Char.toUpper⟩

/-- Does the first character list start with the second one? -/
def charsLeadWith : List Char → List Char → Bool
  | [], _ => true
  | _ :: _, [] => false
  | a :: a2, b :: b2 => a == b && charsLeadWith a2 b2

/-- Scans the haystack (first argument) for the needle (second argument). -/
def charsHasSub : List Char → List Char → Bool
  | [], needle => needle.isEmpty
  | h :: t, needle => charsLeadWith needle (h :: t) || charsHasSub t needle

/-- Python's substring test `needle in hay`. -/
def hasSub (hay needle : String) : Bool := charsHasSub hay.data needle.data

/-! ## Numeric helpers -/

/-- Round a rational to the nearest integer, ties to even — Python's `round`. -/
def roundHalfEven (x : ℚ) : ℤ :=
  let f := Int.floor x
  let r := x - f
  if r < 1 / 2 then f
  else if 1 / 2 < r then f + 1
  else if f % 2 = 0 then f else f + 1

/-- Models Python `round(x, 1)`: round to one decimal, ties to even.  (Python
rounds the exact binary value of its float; on the exactly-representable decimal
values asserted in this file both agree.) -/
def round1 (x : ℚ) : ℚ := (roundHalfEven (x * 10) : ℚ) / 10

/-- Models `np.clip(x, lo, hi)`. -/
def clip (x lo hi : ℚ) : ℚ := min (max x lo) hi

/-- Python float formatting (`str`) for the nonnegative one-decimal scores the
app prints, e.g. `45 ↦ "45.0"`, `52.1 ↦ "52.1"`. -/
def fmtScore (q : ℚ) : String :=
  let n := (Int.floor (q * 10)).toNat
  toString (n / 10) ++ "." ++ toString (n % 10)

/-! ## Reference tables (src/app.py lines 652–748) -/

/-- A risk-profile table: Python dicts with a `"default"` key.  The `"default"`
entry of the source dict is the `default` field here; `entries` holds the
remaining keys. -/
structure RiskTable where
  default : ℚ
  entries : List (String × ℚ)

/-- `GEO_RISK` (src/app.py line 652). -/
def GEO_RISK : RiskTable :=
  { default := 35
    entries := [("Ukraine", 90), ("Russia", 85), ("Israel", 80), ("Gaza Strip", 92),
      ("China", 60), ("Taiwan", 70), ("USA", 30), ("Germany", 25), ("UK", 25),
      ("India", 40), ("Brazil", 45), ("South Africa", 40), ("Australia", 35),
      ("Bangladesh", 60), ("Philippines", 60), ("Pakistan", 55), ("Singapore", 20),
      ("Netherlands", 22), ("Mexico", 45), ("Canada", 20), ("Japan", 25),
      ("South Korea", 30)] }

/-- `CLIMATE_RISK` (src/app.py line 678). -/
def CLIMATE_RISK : RiskTable :=
  { default := 40
    entries := [("Bangladesh", 85), ("Philippines", 80), ("Pakistan", 75),
      ("USA", 45), ("India", 65), ("Australia", 55), ("Brazil", 50), ("China", 45),
      ("Japan", 40), ("Mexico", 50)] }

/-- `LOGISTICS_RISK` (src/app.py line 692). -/
def LOGISTICS_RISK : RiskTable :=
  { default := 35
    entries := [("USA", 50), ("China", 55), ("Singapore", 40), ("Netherlands", 45),
      ("Germany", 40), ("UK", 45), ("India", 50), ("Brazil", 48),
      ("South Africa", 50), ("Mexico", 52)] }

/-- `CYBER_RISK` (src/app.py line 706). -/
def CYBER_RISK : RiskTable :=
  { default := 40
    entries := [("USA", 55), ("European Union", 50), ("China", 60), ("India", 45),
      ("Japan", 50), ("Brazil", 42), ("UK", 48)] }

/-- `COUNTRY_LIST = sorted(COUNTRY_COORDS.keys())` (src/app.py line 741),
written out in Python's sorted (ASCII-lexicographic) order. -/
def COUNTRY_LIST : List String :=
  ["Australia", "Bangladesh", "Brazil", "Canada", "China", "Gaza Strip", "Germany",
   "India", "Israel", "Japan", "Mexico", "Netherlands", "Pakistan", "Philippines",
   "Russia", "Singapore", "South Africa", "South Korea", "UK", "USA", "Ukraine"]

/-- The fixed active-conflict set, written inline in `compute_route_risk`
(src/app.py line 826). -/
def CONFLICT_COUNTRIES : List String :=
  ["Ukraine", "Russia", "Israel", "Gaza Strip", "Taiwan"]

/-- `get_score(table, c)` (src/app.py line 773): `table.get(c, table["default"])`. -/
def get_score (table : RiskTable) (c : String) : ℚ :=
  (table.entries.lookup c).getD table.default

/-- `risk_level` (src/app.py line 754). -/
def risk_level (s : ℚ) : String :=
  if s < 25 then "Low"
  else if s < 50 then "Moderate"
  else if s < 75 then "High"
  else "Critical"

/-! ## The scoring model -/

/-- A calendar date; `compute_route_risk` reads only the month. -/
structure Date where
  year : ℕ
  month : ℕ
  day : ℕ

/-- The output dict of `compute_route_risk` (src/app.py lines 842–849). -/
structure RiskAssessment where
  geopolitical : ℚ
  climate : ℚ
  logistics : ℚ
  cyber : ℚ
  overall : ℚ
  conflict_bump : ℚ
deriving DecidableEq

/-- `compute_route_risk` (src/app.py lines 796–849).  The Python `isinstance`
branch that parses an ISO string into a date is not modelled: the embedding
takes the date directly.  `cargo_value` and `time_critical` are the trailing
parameters of the source function, never read by its body. -/
def compute_route_risk (origin dest mode : String) (dep_date : Date)
    (weighting : String) (include_conflict : Bool)
    (cargo_value : ℚ := 0) (time_critical : Bool := false) : RiskAssessment :=
  let g := (get_score GEO_RISK origin + get_score GEO_RISK dest) / 2
  let c := (get_score CLIMATE_RISK origin + get_score CLIMATE_RISK dest) / 2
  let l := (get_score LOGISTICS_RISK origin + get_score LOGISTICS_RISK dest) / 2
  let cb := (get_score CYBER_RISK origin + get_score CYBER_RISK dest) / 2
  let l := if mode = "sea" then l * 1.15
           else if mode = "air" then l * 0.9
           else if mode = "road" then l * 1.1
           else l
  let c := if mode = "air" then c * 0.9 else c
  let c := if dep_date.month = 6 ∨ dep_date.month = 7 ∨ dep_date.month = 8
              ∨ dep_date.month = 9 then c * 1.15 else c
  let bumped := include_conflict && CONFLICT_COUNTRIES.contains origin
  let conflict_bump : ℚ := if bumped then 10 else 0
  let g := if bumped then g * 1.1 else g
  let w : ℚ × ℚ × ℚ × ℚ :=
    if weighting = "Geo-heavy" then (0.45, 0.25, 0.2, 0.1)
    else if weighting = "Climate-heavy" then (0.25, 0.45, 0.2, 0.1)
    else if weighting = "Logistics-heavy" then (0.25, 0.2, 0.45, 0.1)
    else (0.35, 0.3, 0.25, 0.1)
  let overall := g * w.1 + c * w.2.1 + l * w.2.2.1 + cb * w.2.2.2 + conflict_bump
  let overall := clip (round1 overall) 0 100
  { geopolitical := round1 g
    climate := round1 c
    logistics := round1 l
    cyber := round1 cb
    overall := overall
    conflict_bump := conflict_bump }

/-! ## Scenario lab stress recomputation -/

/-- The stressed dict built in `render_scenario_lab` (src/app.py lines 1199–1211). -/
structure Scenario where
  geopolitical : ℚ
  climate : ℚ
  logistics : ℚ
  cyber : ℚ
  overall : ℚ
deriving DecidableEq

/-- The stress computation of `render_scenario_lab` (src/app.py lines 1199–1211):
per-dimension multipliers on the base assessment's (already rounded) sub-scores,
then `overall` recomputed with the fixed 0.35/0.30/0.25/0.10 weights, rounded and
clipped; no conflict bump. -/
def stress_scenario (rs : RiskAssessment) (geo_m cli_m log_m cyb_m : ℚ) : Scenario :=
  let g := round1 (rs.geopolitical * geo_m)
  let c := round1 (rs.climate * cli_m)
  let l := round1 (rs.logistics * log_m)
  let cy := round1 (rs.cyber * cyb_m)
  let ov := g * 0.35 + c * 0.3 + l * 0.25 + cy * 0.1
  { geopolitical := g, climate := c, logistics := l, cyber := cy
    overall := clip (round1 ov) 0 100 }

/-! ## Session context (Streamlit session state slots read by the engine) -/

/-- The `last_route` dict written by the Route Analyzer (src/app.py lines
1061–1068). -/
structure Route where
  origin : String
  dest : String
  mode : String
  date : String
  weighting : String
  conflict : Bool

/-- One entry of the `optimizer_options` list (src/app.py lines 1331–1365). -/
structure OptimizerOption where
  label : String
  origin : String
  dest : String
  mode : String
  risks : RiskAssessment

/-- The session-state slots `generate_mock_response` reads (src/app.py lines
45–48).  `none` models an absent key. -/
structure SessionCtx where
  last_route : Option Route
  last_risks : Option RiskAssessment
  scenario : Option Scenario
  optimizer_options : Option (List OptimizerOption)

/-- Python's `str()` of the stressed-scenario dict, as interpolated into the
context block (src/app.py line 59).  `\x7b`/`\x7d` are the brace characters and
`\x27` the ASCII apostrophe of the dict repr. -/
def scenarioStr (s : Scenario) : String :=
  "\x7b\x27geopolitical\x27: " ++ fmtScore s.geopolitical
    ++ ", \x27climate\x27: " ++ fmtScore s.climate
    ++ ", \x27logistics\x27: " ++ fmtScore s.logistics
    ++ ", \x27cyber\x27: " ++ fmtScore s.cyber
    ++ ", \x27overall\x27: " ++ fmtScore s.overall ++ "\x7d"

/-- The context block built at the top of `generate_mock_response` (src/app.py
lines 50–61).  An empty `optimizer_options` list is falsy in Python and adds
nothing. -/
def mkContextBlock (ctx : SessionCtx) : String :=
  let s := ""
  let s := match ctx.last_route, ctx.last_risks with
    | some route, some risks =>
        s ++ "\n\n**Current lane in tool:** " ++ route.origin ++ " → " ++ route.dest
          ++ " via " ++ strUpper route.mode ++ " (overall risk "
          ++ fmtScore risks.overall ++ "/100)"
    | _, _ => s
  let s := match ctx.scenario with
    | some scen => s ++ "\n\n**Scenario context:** " ++ scenarioStr scen
    | none => s
  let s := match ctx.optimizer_options with
    | some opts =>
        if opts.isEmpty then s
        else s ++ "\n\n**Network options configured:** " ++ toString opts.length
               ++ " alternatives."
    | none => s
  s

/-! ## Location extraction -/

/-- Order-preserving de-duplication keeping first occurrences, modelling
`list(dict.fromkeys(found))` (src/app.py line 73). -/
def dedupFirstAux : List String → List String → List String
  | _, [] => []
  | seen, x :: xs =>
      if seen.contains x then dedupFirstAux seen xs
      else x :: dedupFirstAux (x :: seen) xs

/-- See `dedupFirstAux`. -/
def dedupFirst (l : List String) : List String := dedupFirstAux [] l

/-- `detect_countries` (src/app.py lines 66–73): scans `COUNTRY_LIST` in order
and keeps the names whose lower-casing occurs in the lower-cased text. -/
def detect_countries (text : String) : List String :=
  dedupFirst (COUNTRY_LIST.filter (fun c => hasSub (strLower text) (strLower c)))

/-- Origin/destination extraction (src/app.py lines 102–116): the first two
detected countries, else the current route when the prompt clearly refers to
it. -/
def extract_origin_dest (user_prompt lower : String) (ctx : SessionCtx) :
    Option (String × String) :=
  match detect_countries user_prompt with
  | c1 :: c2 :: _ => some (c1, c2)
  | _ =>
    match ctx.last_route with
    | some route =>
        if hasSub lower "this route" || hasSub lower "last route"
            || hasSub lower "this lane" || hasSub lower "last lane"
            || hasSub lower "corridor" then
          some (route.origin, route.dest)
        else none
    | none => none

/-! ## Response rendering, one routine per intent -/

/-- Stable descending insertion by the numeric component (Python
`list.sort(key=..., reverse=True)` in `describe_dominant_risks`). -/
def insert_desc (x : String × ℚ) : List (String × ℚ) → List (String × ℚ)
  | [] => [x]
  | y :: ys => if y.2 ≤ x.2 then x :: y :: ys else y :: insert_desc x ys

/-- See `insert_desc`. -/
def sort_desc : List (String × ℚ) → List (String × ℚ)
  | [] => []
  | x :: xs => insert_desc x (sort_desc xs)

/-- `describe_dominant_risks` (src/app.py lines 78–97). -/
def describe_dominant_risks (r : RiskAssessment) : List String :=
  let dims := [("Geopolitics", r.geopolitical), ("Climate", r.climate),
    ("Logistics", r.logistics), ("Cyber", r.cyber)]
  let dims := sort_desc dims
  (dims.take 3).map (fun nv =>
    let driver :=
      if nv.1 = "Geopolitics" then
        "geopolitical tensions, regulatory shifts or sanctions exposure"
      else if nv.1 = "Climate" then
        "weather volatility, storms, flooding and seasonal disruption"
      else if nv.1 = "Logistics" then
        "port congestion, infrastructure bottlenecks and capacity constraints"
      else
        "data security, ransomware and technology dependencies"
    "- **" ++ nv.1 ++ " (" ++ fmtScore nv.2 ++ "/100)** — driven by " ++ driver ++ ".")

/-- Intent 1, ExplainRoute (src/app.py lines 122–179). -/
def render_explain_route (route : Route) (risks : RiskAssessment)
    (context_block : String) : String :=
  let lines : List String :=
    ["**🌍 Lane Intelligence: " ++ route.origin ++ " → " ++ route.dest
        ++ " (" ++ strUpper route.mode ++ ")**",
     "",
     "- **Overall risk:** **" ++ fmtScore risks.overall ++ "/100** ("
        ++ risk_level risks.overall ++ " band)",
     "- **Breakdown:** Geo " ++ fmtScore risks.geopolitical ++ ", Climate "
        ++ fmtScore risks.climate ++ ", Logistics " ++ fmtScore risks.logistics
        ++ ", Cyber " ++ fmtScore risks.cyber ++ ".",
     "",
     "**Top risk drivers for this lane:**"]
    ++ describe_dominant_risks risks
    ++ [""]
    ++ (if route.mode = "sea" then
          ["- **Sea freight notes:** Sensitive to port congestion, maritime chokepoints (e.g. Suez, Red Sea) and seasonal storms along the route."]
        else if route.mode = "air" then
          ["- **Air freight notes:** Reduces logistics and climate exposure but increases cost; capacity and belly-space constraints can still create volatility."]
        else if route.mode = "road" then
          ["- **Road freight notes:** Flexible rerouting is possible, but vulnerable to border queues, regulatory checks and road infrastructure quality."]
        else if route.mode = "rail" then
          ["- **Rail notes:** Typically stable schedules and lower weather sensitivity, but slower to reroute during disruption."]
        else [])
    ++ ["",
        "**Mitigation playbook:**",
        "- Design a **primary lane** and at least one **pre-agreed fallback route**.",
        "- Align **incoterms, SLAs and insurance** with the current risk level.",
        "- Implement **lane-level monitoring** (ports, borders, weather, cyber).",
        "- Use **multi-modal combinations** (e.g. sea + air, rail + truck) for critical flows."]
    ++ (if context_block = "" then [] else [context_block])
  String.intercalate "\n" lines

/-- Stable ascending insertion by the `overall` component (Python
`mode_results.sort(key=lambda x: x[1])`). -/
def insert_by_overall (x : String × ℚ × RiskAssessment) :
    List (String × ℚ × RiskAssessment) → List (String × ℚ × RiskAssessment)
  | [] => [x]
  | y :: ys => if x.2.1 ≤ y.2.1 then x :: y :: ys else y :: insert_by_overall x ys

/-- See `insert_by_overall`. -/
def sort_by_overall :
    List (String × ℚ × RiskAssessment) → List (String × ℚ × RiskAssessment)
  | [] => []
  | x :: xs => insert_by_overall x (sort_by_overall xs)

/-- Placeholder assessment for the unreachable empty-list default of `headD`
(the mode list below is never empty). -/
def ARB_RISKS : RiskAssessment := ⟨0, 0, 0, 0, 0, 0⟩

/-- Intent 2, SafestModeComparison (src/app.py lines 184–245). -/
def render_safest_mode (origin dest : String) (today : Date)
    (context_block : String) : String :=
  let mode_results := (["sea", "air", "road", "rail"] : List String).map (fun m =>
    let r_model := compute_route_risk origin dest m today "Balanced" true
    (m, r_model.overall, r_model))
  let mode_results := sort_by_overall mode_results
  let best := mode_results.headD ("", 0, ARB_RISKS)
  let best_mode := best.1
  let best_score := best.2.1
  let reason : List String :=
    if best_mode = "air" then
      ["avoids maritime chokepoints and port queues",
       "reduces exposure to storms and congestion",
       "offers tighter transit-time control"]
    else if best_mode = "sea" then
      ["most cost-efficient for large volumes",
       "can shift ports/carriers during disruption"]
    else if best_mode = "road" then
      ["flexible rerouting for regional flows"]
    else if best_mode = "rail" then
      ["stable schedules with lower weather sensitivity"]
    else []
  let lines : List String :=
    ["**🧭 Safety-Focused Mode Comparison: " ++ origin ++ " → " ++ dest ++ "**\n",
     "**Mode ranking (lower score = safer):**"]
    ++ mode_results.map (fun t =>
        "- **" ++ strUpper t.1 ++ "** → overall risk **" ++ fmtScore t.2.1
          ++ "/100** (Geo " ++ fmtScore t.2.2.geopolitical ++ ", Climate "
          ++ fmtScore t.2.2.climate ++ ", Logistics " ++ fmtScore t.2.2.logistics
          ++ ", Cyber " ++ fmtScore t.2.2.cyber ++ ")")
    ++ ["",
        "**Recommended primary mode for safety:** **" ++ strUpper best_mode
          ++ "** with modeled risk **" ++ fmtScore best_score ++ "/100**."]
    ++ (if reason.isEmpty then []
        else "\n**Why this mode wins for safety:**" :: reason.map (fun r => "- " ++ r))
    ++ ["\n**Practical playbook:**",
        "- Use the safest mode for high-value or critical flows.",
        "- Keep a secondary mode as contingency.",
        "- Align SLAs, insurance and monitoring with risk."]
    ++ (if context_block = "" then [] else [context_block])
  String.intercalate "\n" lines

/-- Intent 3, ScenarioExplanation (src/app.py lines 250–286): fixed text. -/
def render_scenario_explanation (context_block : String) : String :=
  let lines : List String :=
    ["**📊 Scenario Lab – Stress Test Interpretation**",
     "",
     "- The stressed scenario increases one or more risk dimensions versus the base case.",
     "- Focus on where the **percentage change** is greatest (often Climate or Logistics).",
     "",
     "**How to read it:**",
     "- If **Climate** jumps strongly, treat the lane as more sensitive to storms, floods or heatwaves — adjust schedules and inventory buffers accordingly.",
     "- If **Logistics** spikes, assume port, terminal or carrier disruptions — prepare alternative routings and backup capacity.",
     "- If **Geopolitics** rises, revisit sanctions, export controls and regulatory checks.",
     "- If **Cyber** rises, review TMS/WMS, partners’ security posture and incident response.",
     "",
     "**Resilience actions under stress:**",
     "- Build in additional lead-time for the stressed scenario.",
     "- Increase safety stock or strategic buffers at key nodes.",
     "- Pre-negotiate alternative carriers, ports and modes.",
     "- Run playbooks for extreme but plausible disruptions."]
    ++ (if context_block = "" then [] else [context_block])
  String.intercalate "\n" lines

/-- Intent 4, RouteComparison (src/app.py lines 291–322): fixed text. -/
def render_route_comparison (context_block : String) : String :=
  let lines : List String :=
    ["**🔄 Multi-Route Comparison & Recommendation**",
     "",
     "- Prefer lanes with **lower overall risk** where service and cost are acceptable.",
     "- When routes have similar overall risk, choose the one with **lower Logistics and Climate scores**, as these tend to drive day-to-day disruption.",
     "",
     "**Typical trade-off logic:**",
     "- Air vs Sea: air is safer for time-critical freight; sea wins on cost.",
     "- Europe vs Asia origin: European origins often bring lower geopolitical volatility but may have longer transit and higher cost.",
     "- Singapore / Netherlands hubs: frequently provide more resilient infrastructure and cyber posture than regional alternatives.",
     "",
     "Use low-risk routes for your **core, high-volume flows**, and keep a small share on alternative lanes to preserve agility."]
    ++ (if context_block = "" then [] else [context_block])
  String.intercalate "\n" lines

/-- Intent 5, NetworkOptimizerAdvice (src/app.py lines 327–349): fixed text. -/
def render_network_optimizer (context_block : String) : String :=
  let lines : List String :=
    ["**🎯 Network Optimizer – Recommended Configuration**",
     "",
     "- Select as your **primary option** the lane with the **lowest overall risk** that still meets service and cost constraints.",
     "- Use the **second-best option** as a formal, contracted contingency with pre-defined triggers (e.g. corridor closure, war-risk premiums, major port outage).",
     "",
     "**Design principles:**",
     "- Avoid concentration in a single corridor or single port cluster.",
     "- Mix geographies (e.g. Europe + Asia hubs) to diversify geopolitical risk.",
     "- Combine modes (sea + air, rail + truck) for strategic SKUs.",
     "- Align your sourcing strategy with the chosen network lanes."]
    ++ (if context_block = "" then [] else [context_block])
  String.intercalate "\n" lines

/-- The static cost ranking of intent 6 (src/app.py line 370); the lookup is
only ever applied to the four fixed modes. -/
def cost_order (m : String) : ℕ :=
  if m = "sea" then 1 else if m = "rail" then 2 else if m = "road" then 3 else 4

/-- Python `min(xs, key=f)`: first element with minimal key.  The empty-list
default is unreachable for the fixed mode list. -/
def pyMinBy (f : String → ℕ) : List String → String
  | [] => ""
  | x :: xs => xs.foldl (fun best m => if f m < f best then m else best) x

/-- Intent 6, UniversalBestRoute (src/app.py lines 354–391). -/
def render_universal_best (origin dest : String) (today : Date)
    (context_block : String) : String :=
  let modes : List String := ["sea", "air", "road", "rail"]
  let results := modes.map (fun m =>
    let r_model := compute_route_risk origin dest m today "Balanced" true
    (m, r_model.overall, r_model))
  let safest := (sort_by_overall results).headD ("", 0, ARB_RISKS)
  let cheapest_mode := pyMinBy cost_order modes
  let lines : List String :=
    ["**🌐 Route Assessment: " ++ origin ++ " → " ++ dest ++ "**",
     "\n### 🟢 Safest mode",
     "- **" ++ strUpper safest.1 ++ "** with modeled risk **"
        ++ fmtScore safest.2.1 ++ "/100**",
     "\n### 🟣 Cheapest mode",
     "- **" ++ strUpper cheapest_mode ++ "** (lowest cost baseline in this model)",
     "\n### 🔄 Trade-off Summary",
     "- **Air** → safest + fastest, highest cost",
     "- **Sea** → cheapest, slowest, higher climate/logistics risk",
     "- **Rail** → stable for Asia–EU style land corridors",
     "- **Road** → regional / last-mile rather than full intercontinental route"]
    ++ (if context_block = "" then [] else [context_block])
  String.intercalate "\n" lines

/-- Intent 7, OutOfDomain refusal (src/app.py lines 410–421); returned without
the context block.  `\x27` is the ASCII apostrophe. -/
def OUT_OF_DOMAIN_TEXT : String :=
  "**ℹ️ General Knowledge Note**\n\n"
    ++ "This AI assistant is focused on **supply chain, geopolitics, climate, logistics "
    ++ "and cyber risk**.\n\n"
    ++ "The question you asked appears to be **outside this domain**, so I unfortunately "
    ++ "cannot provide an accurate answer.\n\n"
    ++ "Try asking things like:\n"
    ++ "- \x27Safest mode between India and USA\x27\n"
    ++ "- \x27How would conflict in the Red Sea affect my supply chain?\x27\n"
    ++ "- \x27What\x27s the best routing strategy for high-value cargo?\x27"

/-- Intent 8, GeneralStrategy (src/app.py lines 426–483). -/
def render_general_strategy (od : Option (String × String)) (ctx : SessionCtx)
    (lower context_block : String) : String :=
  let framing := match od with
    | some p =>
        "- You are moving freight between **" ++ p.1 ++ "** and **" ++ p.2
          ++ "**, combining geopolitical, climate, logistics and cyber risks."
    | none =>
        "- You are balancing service, cost and risk across a multi-country supply network."
  let lane_focus : List String := match ctx.last_route, ctx.last_risks with
    | some route, some risks =>
        if hasSub lower "this route" || hasSub lower "last route"
            || hasSub lower "this lane" || hasSub lower "last lane"
            || hasSub lower "current lane" then
          ["- Current lane in focus: **" ++ route.origin ++ " → " ++ route.dest
            ++ " (" ++ strUpper route.mode ++ ")**, overall risk **"
            ++ fmtScore risks.overall ++ "/100**."]
        else []
    | _, _ => []
  let lines : List String :=
    ["**🤖 Strategic Advisory Response**",
     "",
     "**1. Situation framing**",
     framing]
    ++ lane_focus
    ++ ["",
        "**2. Immediate priorities (0–3 months)**",
        "- Identify your **top 5 critical lanes** by value and service sensitivity.",
        "- For each, define a **primary route** and at least one **fallback lane**.",
        "- Tighten **cyber hygiene** for core logistics systems and partners.",
        "- Adjust **sailing / flight windows** around known climate seasons (monsoon, hurricanes, typhoons).",
        "",
        "**3. Medium-term moves (3–12 months)**",
        "- Stand up a **lane risk dashboard** with monthly geo/climate/logistics signals.",
        "- Build a **playbook library** for disruptions (port closure, strike, corridor conflict).",
        "- Pilot **multi-sourcing** and **multi-hub** strategies for key SKUs.",
        "- Introduce **predictive ETA and capacity monitoring** for high-risk lanes.",
        "",
        "**4. Long-term design (12+ months)**",
        "- Develop a **digital twin** of your end-to-end network for scenario simulation.",
        "- Align **sustainability, cost and resilience** targets per lane.",
        "- Institutionalize a **cross-functional risk council** (Supply Chain, Finance, Risk, Commercial)."]
    ++ (if context_block = "" then [] else [context_block])
  String.intercalate "\n" lines

/-- Intent 9, DefaultExecutiveSummary (src/app.py lines 488–507): one fixed
triple-quoted string (some lines end with Markdown's two trailing spaces). -/
def DEFAULT_EXECUTIVE_SUMMARY : String :=
  "\n**🌐 GeoClimate AI Command Center Analysis**\n\n"
    ++ "**Executive Summary**  \n"
    ++ "This assessment highlights multiple opportunities to improve resilience, cost and service across your global network. It considers geopolitics, climate, logistics and cyber risk as an integrated system.\n\n"
    ++ "**Key Insights**\n"
    ++ "- **Route diversification** can reduce disruption exposure by 25–40% on critical lanes.  \n"
    ++ "- **Climate-aware scheduling** (monsoon, hurricane, typhoon seasons) significantly improves on-time performance.  \n"
    ++ "- Strengthening **cyber security** for logistics platforms lowers the likelihood of high-impact outages.  \n\n"
    ++ "**Recommended Actions**\n"
    ++ "1. Identify your top risk-weighted lanes and define clear primary and backup routings.  \n"
    ++ "2. Use multi-modal options (sea + air, rail + truck) for high-value or time-critical flows.  \n"
    ++ "3. Implement monitoring of ports, corridors and weather to trigger pre-defined playbooks.  \n"
    ++ "4. Regularly review sourcing and network design as geopolitics and climate patterns evolve.  \n\n"
    ++ "Use the Route Analyzer, Scenario Lab and Network Optimizer together to turn this into a living,\n"
    ++ "adaptive supply chain design rather than a one-off study.\n"

/-! ## The intent classifier + synthesizer -/

/-- The safety/mode keyword test of intent 2 (src/app.py lines 184–189). -/
def isSafetyQuestion (lower : String) : Bool :=
  (["safe", "safest", "lower risk", "least risk", "secure"] : List String).any
      (fun wd => hasSub lower wd)
    && (["mode", "air", "sea", "ocean", "ship", "road", "truck", "rail", "freight"] :
        List String).any (fun wd => hasSub lower wd)

/-- The keyword test of intent 6 (src/app.py line 355). -/
def universalRouteKeyword (lower : String) : Bool :=
  (["safest", "cheap", "cheapest", "best route", "optimal route"] : List String).any
    (fun wd => hasSub lower wd)

/-- The out-of-domain keyword test of intent 7 (src/app.py lines 396–410). -/
def nonDomainKeyword (lower : String) : Bool :=
  (["world cup", "cricket", "football", "soccer", "who won", "nba", "movie",
    "actor", "singer", "music", "president"] : List String).any
    (fun wd => hasSub lower wd)

/-- Intents 2–9 of `generate_mock_response`, evaluated in source order after the
ExplainRoute branch has not fired (src/app.py lines 184–507).  Guards that
Python writes as `cond and origin and dest` become `cond && od.isSome`; the
`getD` defaults are unreachable under the `isSome` guards. -/
def respond_after_explain (user_prompt lower context_block : String)
    (od : Option (String × String)) (ctx : SessionCtx) (today : Date) : String :=
  if isSafetyQuestion lower && od.isSome then
    render_safest_mode (od.getD ("", "")).1 (od.getD ("", "")).2 today context_block
  else if hasSub lower "base=" && hasSub lower "stressed=" then
    render_scenario_explanation context_block
  else if hasSub lower "compare these routes"
      || (hasSub lower "lane" && hasSub lower "overall") then
    render_route_comparison context_block
  else if hasSub lower "options=" && hasSub lower "advise best choice" then
    render_network_optimizer context_block
  else if universalRouteKeyword lower && od.isSome then
    render_universal_best (od.getD ("", "")).1 (od.getD ("", "")).2 today context_block
  else if nonDomainKeyword lower then
    OUT_OF_DOMAIN_TEXT
  else if hasSub user_prompt "?" || hasSub lower "strategy" || hasSub lower "plan" then
    render_general_strategy od ctx lower context_block
  else
    DEFAULT_EXECUTIVE_SUMMARY

/-- `generate_mock_response` (src/app.py lines 33–507).  The Streamlit session
state it reads is the explicit `ctx`; the `date.today()` used by intents 2 and 6
is the explicit `today`.  The early-return chain of the source becomes: the
ExplainRoute branch (lines 122–179), else `respond_after_explain`. -/
def generate_mock_response (system_prompt user_prompt : String) (ctx : SessionCtx)
    (today : Date) : String :=
  let lower := strLower user_prompt
  let context_block := mkContextBlock ctx
  let od := extract_origin_dest user_prompt lower ctx
  match ctx.last_route, ctx.last_risks with
  | some route, some risks =>
      if hasSub lower "route:" && hasSub lower "scores:" then
        render_explain_route route risks context_block
      else
        respond_after_explain user_prompt lower context_block od ctx today
  | _, _ => respond_after_explain user_prompt lower context_block od ctx today

/-- `ai_call` (src/app.py lines 24–30): ignores `system_prompt` and
`temperature`, delegates to `generate_mock_response`. -/
def ai_call (system_prompt user_prompt : String) (temperature : ℚ := 0.4)
    (ctx : SessionCtx := ⟨none, none, none, none⟩)
    (today : Date := ⟨2024, 1, 1⟩) : String :=
  generate_mock_response system_prompt user_prompt ctx today

/-! ## Fixed prompts used in the claims below -/

/-- An out-of-domain prompt that also carries the ExplainRoute trigger
substrings `"route:"` and `"scores:"`. -/
def PROMPT_ROUTE_MOVIE : String := "route: berlin scores: 42 movie"

/-- The Route Analyzer's internally generated ExplainRoute prompt shape
(src/app.py lines 1110–1115), lower-cased here only in spirit: the engine
lower-cases it itself. -/
def PROMPT_ANALYZER : String :=
  "\nRoute: China → USA via SEA\nScores: Geo=45.0, Climate=51.8,\nLogistics=60.4, Cyber=57.5, Overall=52.1\nExplain top drivers and mitigations.\n"

/-- A prompt naming USA before China. -/
def PROMPT_USA_CHINA : String := "cheapest route from usa to china"

/-- A safest-mode question between two gazetteer countries. -/
def PROMPT_SAFEST : String := "safest mode between germany and japan"

/-- A concrete stored route used to witness the context-dependent claims. -/
def WITNESS_ROUTE : Route := ⟨"China", "USA", "sea", "2024-01-15", "Balanced", true⟩

/-- The assessment the Route Analyzer would store alongside `WITNESS_ROUTE`. -/
def WITNESS_RISKS : RiskAssessment :=
  compute_route_risk "China" "USA" "sea" ⟨2024, 1, 15⟩ "Balanced" true

/-! ## Helper lemmas -/

/-- The clamp always lands in the unit interval scaled to 100. -/
theorem clip_bounds (x : ℚ) : 0 ≤ clip x 0 100 ∧ clip x 0 100 ≤ 100 :=
  ⟨le_min (le_max_right x 0) (by norm_num), min_le_right _ _⟩

/-- De-duplication only drops elements. -/
theorem dedupFirstAux_sublist : ∀ (l seen : List String),
    List.Sublist (dedupFirstAux seen l) l := by
  intro l
  induction l with
  | nil => intro seen; exact List.Sublist.refl _
  | cons x xs ih =>
      intro seen
      change List.Sublist (if seen.contains x then dedupFirstAux seen xs
        else x :: dedupFirstAux (x :: seen) xs) (x :: xs)
      split
      · exact (ih seen).cons x
      · exact (ih (x :: seen)).cons₂ x

/-- Detected countries always come out as a sublist of the gazetteer, i.e. in
`COUNTRY_LIST` (alphabetical) order. -/
theorem detect_countries_sublist (t : String) :
    List.Sublist (detect_countries t) COUNTRY_LIST :=
  (dedupFirstAux_sublist _ _).trans (List.filter_sublist _)

/-! ## The claims -/

/-- C1: `compute_route_risk` is total: a location absent from a dimension table
resolves to that table's default, an unrecognized mode string applies no
multiplicative adjustment (it behaves exactly like the adjustment-free `"rail"`
case), and an unrecognized weighting string falls back to the Balanced
weights. -/
theorem c1_compute_total_with_defaults :
    (∀ (t : RiskTable) (c : String), t.entries.lookup c = none →
      get_score t c = t.default) ∧
    (∀ (o d m : String) (dt : Date) (w : String) (ic : Bool) (cv : ℚ) (tc : Bool),
      ¬ m ∈ (["sea", "air", "road", "rail"] : List String) →
      compute_route_risk o d m dt w ic cv tc
        = compute_route_risk o d "rail" dt w ic cv tc) ∧
    (∀ (o d m : String) (dt : Date) (w : String) (ic : Bool) (cv : ℚ) (tc : Bool),
      ¬ w ∈ (["Geo-heavy", "Climate-heavy", "Logistics-heavy"] : List String) →
      compute_route_risk o d m dt w ic cv tc
        = compute_route_risk o d m dt "Balanced" ic cv tc) := by
  refine ⟨fun t c h => ?_, fun o d m dt w ic cv tc hm => ?_,
    fun o d m dt w ic cv tc hw => ?_⟩
  · simp [get_score, h]
  · simp only [List.mem_cons, List.not_mem_nil, or_false, not_or] at hm
    obtain ⟨h1, h2, h3, h4⟩ := hm
    simp [compute_route_risk, h1, h2, h3]
  · simp only [List.mem_cons, List.not_mem_nil, or_false, not_or] at hw
    obtain ⟨h1, h2, h3⟩ := hw
    simp [compute_route_risk, h1, h2, h3]

/-- Witness for C1 at concrete inputs: the unknown location `"Atlantis"`, the
unknown mode `"hyperloop"` and the unknown weighting `"Weird-heavy"`. -/
theorem c1_compute_total_with_defaults_witness :
    get_score GEO_RISK "Atlantis" = GEO_RISK.default ∧
    compute_route_risk "China" "USA" "hyperloop" ⟨2024, 1, 15⟩ "Balanced" true 0 false
      = compute_route_risk "China" "USA" "rail" ⟨2024, 1, 15⟩ "Balanced" true 0 false ∧
    compute_route_risk "China" "USA" "sea" ⟨2024, 1, 15⟩ "Weird-heavy" true 0 false
      = compute_route_risk "China" "USA" "sea" ⟨2024, 1, 15⟩ "Balanced" true 0 false :=
  ⟨c1_compute_total_with_defaults.1 GEO_RISK "Atlantis" (by decide),
   c1_compute_total_with_defaults.2.1 "China" "USA" "hyperloop" ⟨2024, 1, 15⟩
     "Balanced" true 0 false (by decide),
   c1_compute_total_with_defaults.2.2 "China" "USA" "sea" ⟨2024, 1, 15⟩
     "Weird-heavy" true 0 false (by decide)⟩

/-- C2: for every input the returned `overall` lies in [0, 100] (it is clamped),
while the sub-scores are rounded but not clamped: with origin Gaza Strip,
destination Ukraine and the conflict flag set, the geopolitical sub-score is
100.1, strictly above 100. -/
theorem c2_overall_clamped_subscores_not :
    (∀ (o d m : String) (dt : Date) (w : String) (ic : Bool) (cv : ℚ) (tc : Bool),
      0 ≤ (compute_route_risk o d m dt w ic cv tc).overall ∧
      (compute_route_risk o d m dt w ic cv tc).overall ≤ 100) ∧
    (compute_route_risk "Gaza Strip" "Ukraine" "sea" ⟨2024, 1, 15⟩ "Balanced"
        true).geopolitical = 100.1 ∧
    100 < (compute_route_risk "Gaza Strip" "Ukraine" "sea" ⟨2024, 1, 15⟩ "Balanced"
        true).geopolitical := by
  refine ⟨fun o d m dt w ic cv tc => ?_, by decide, by decide⟩
  exact clip_bounds _

/-- C3: the conflict adjustment fires exactly when the flag is set and the
origin (never the destination) is in the fixed conflict set; then the bump is 10
and the geopolitical average is multiplied by 1.1, otherwise the bump is 0 and
the geopolitical average is unmultiplied.  In particular USA→Ukraine gets no
bump while Ukraine→USA does. -/
theorem c3_conflict_bump_origin_only :
    (∀ (o d m : String) (dt : Date) (w : String) (ic : Bool) (cv : ℚ) (tc : Bool),
      ((compute_route_risk o d m dt w ic cv tc).conflict_bump
          = if ic && CONFLICT_COUNTRIES.contains o then 10 else 0) ∧
      ((compute_route_risk o d m dt w ic cv tc).geopolitical
          = if ic && CONFLICT_COUNTRIES.contains o
            then round1 ((get_score GEO_RISK o + get_score GEO_RISK d) / 2 * 1.1)
            else round1 ((get_score GEO_RISK o + get_score GEO_RISK d) / 2))) ∧
    (compute_route_risk "USA" "Ukraine" "sea" ⟨2024, 1, 15⟩ "Balanced"
        true).conflict_bump = 0 ∧
    (compute_route_risk "Ukraine" "USA" "sea" ⟨2024, 1, 15⟩ "Balanced"
        true).conflict_bump = 10 := by
  refine ⟨fun o d m dt w ic cv tc => ⟨rfl, ?_⟩, by decide, by decide⟩
  rw [← apply_ite round1]
  rfl

/-- C4 counterexample: in the prompt `"cheapest route from usa to china"` the
substring `"usa"` occurs before any occurrence of `"china"` (it already occurs
in the proper prefix `"cheapest route from usa "`, which contains no
`"china"`), yet the extraction helper returns `["China", "USA"]` — gazetteer
order, not prompt order — refuting the claimed prompt-order semantics. -/
theorem c4_prompt_order_counterexample :
    "cheapest route from usa " ++ "to china" = PROMPT_USA_CHINA ∧
    hasSub (strLower "cheapest route from usa ") "usa" = true ∧
    hasSub (strLower "cheapest route from usa ") "china" = false ∧
    detect_countries PROMPT_USA_CHINA = ["China", "USA"] ∧
    detect_countries PROMPT_USA_CHINA ≠ ["USA", "China"] :=
  ⟨by decide, by decide, by decide, by decide, by decide⟩

/-- C4 (amended): the shared helper collects the case-insensitive matches in the
order of the sorted gazetteer `COUNTRY_LIST` (so any result is a sublist of it),
removes duplicates, and the engine uses the first two as (origin, destination):
the prompt naming USA before China is answered for origin China and destination
USA. -/
theorem c4_gazetteer_order :
    (∀ t : String, List.Sublist (detect_countries t) COUNTRY_LIST) ∧
    detect_countries PROMPT_USA_CHINA = ["China", "USA"] ∧
    hasSub (generate_mock_response "x" PROMPT_USA_CHINA ⟨none, none, none, none⟩
        ⟨2024, 1, 15⟩) "Route Assessment: China → USA" = true :=
  ⟨detect_countries_sublist, by decide, by decide⟩

/-- C5 counterexample: the same prompt with the same (empty) context snapshot
produces different output on 2024-05-15 and 2024-07-15 — the safest-mode
comparison scores the four modes at the current date, whose month drives the
seasonal climate multiplier.  So the engine is not a function of
(prompt, context snapshot) alone. -/
theorem c5_date_dependence_counterexample :
    generate_mock_response "a" PROMPT_SAFEST ⟨none, none, none, none⟩ ⟨2024, 5, 15⟩
      ≠ generate_mock_response "a" PROMPT_SAFEST ⟨none, none, none, none⟩
          ⟨2024, 7, 15⟩ := by decide

/-- C5 (amended): the engine output is fully determined by
(user prompt, context snapshot, current date); the system-prompt argument (and
`ai_call`'s temperature) never affects the output. -/
theorem c5_pure_modulo_date :
    ∀ (sp1 sp2 up : String) (ctx : SessionCtx) (today : Date) (t1 t2 : ℚ),
      generate_mock_response sp1 up ctx today
        = generate_mock_response sp2 up ctx today ∧
      ai_call sp1 up t1 ctx today = ai_call sp2 up t2 ctx today :=
  fun _ _ _ _ _ _ _ => ⟨rfl, rfl⟩

/-- C6: for China→USA by sea on 2024-07-15 with Balanced weighting and the
conflict flag set, the pre-rounding dimension values are geo 45, climate 51.75
(summer ×1.15 since July), logistics 60.375 (sea ×1.15) and cyber 57.5, the
conflict bump is 0 (China is not in the conflict set), and the returned overall
is exactly 52.1. -/
theorem c6_china_usa_example :
    (get_score GEO_RISK "China" + get_score GEO_RISK "USA") / 2 = 45 ∧
    (get_score CLIMATE_RISK "China" + get_score CLIMATE_RISK "USA") / 2 * 1.15
      = 51.75 ∧
    (get_score LOGISTICS_RISK "China" + get_score LOGISTICS_RISK "USA") / 2 * 1.15
      = 60.375 ∧
    (get_score CYBER_RISK "China" + get_score CYBER_RISK "USA") / 2 = 57.5 ∧
    (compute_route_risk "China" "USA" "sea" ⟨2024, 7, 15⟩ "Balanced"
        true).conflict_bump = 0 ∧
    (compute_route_risk "China" "USA" "sea" ⟨2024, 7, 15⟩ "Balanced" true).overall
      = 52.1 :=
  ⟨by decide, by decide, by decide, by decide, by decide, by decide⟩

/-- C7: for every prompt whose lower-casing contains both `"route:"` and
`"scores:"` (in particular every such prompt that also carries an out-of-domain
keyword), the engine returns the ExplainRoute rendering whenever a current route
and assessment exist, whatever the other context slots hold; and whenever either
of route/assessment is missing, every prompt falls through past ExplainRoute to
the later rules (`respond_after_explain`), which for the concrete prompt
`"route: berlin scores: 42 movie"` resolve to the out-of-domain refusal. -/
theorem c7_intent_precedence :
    (∀ (up : String) (route : Route) (risks : RiskAssessment) (scen : Option Scenario)
        (opts : Option (List OptimizerOption)) (sp : String) (today : Date),
      hasSub (strLower up) "route:" = true → hasSub (strLower up) "scores:" = true →
      generate_mock_response sp up ⟨some route, some risks, scen, opts⟩ today
        = render_explain_route route risks
            (mkContextBlock ⟨some route, some risks, scen, opts⟩)) ∧
    (∀ (up sp : String) (riskOpt : Option RiskAssessment) (scen : Option Scenario)
        (opts : Option (List OptimizerOption)) (today : Date),
      generate_mock_response sp up ⟨none, riskOpt, scen, opts⟩ today
        = respond_after_explain up (strLower up)
            (mkContextBlock ⟨none, riskOpt, scen, opts⟩)
            (extract_origin_dest up (strLower up) ⟨none, riskOpt, scen, opts⟩)
            ⟨none, riskOpt, scen, opts⟩ today) ∧
    (∀ (up sp : String) (route : Route) (scen : Option Scenario)
        (opts : Option (List OptimizerOption)) (today : Date),
      generate_mock_response sp up ⟨some route, none, scen, opts⟩ today
        = respond_after_explain up (strLower up)
            (mkContextBlock ⟨some route, none, scen, opts⟩)
            (extract_origin_dest up (strLower up) ⟨some route, none, scen, opts⟩)
            ⟨some route, none, scen, opts⟩ today) ∧
    (∀ (riskOpt : Option RiskAssessment) (scen : Option Scenario)
        (opts : Option (List OptimizerOption)) (sp : String) (today : Date),
      generate_mock_response sp PROMPT_ROUTE_MOVIE ⟨none, riskOpt, scen, opts⟩ today
        = OUT_OF_DOMAIN_TEXT) ∧
    (∀ (route : Route) (scen : Option Scenario)
        (opts : Option (List OptimizerOption)) (sp : String) (today : Date),
      generate_mock_response sp PROMPT_ROUTE_MOVIE ⟨some route, none, scen, opts⟩ today
        = OUT_OF_DOMAIN_TEXT) := by
  refine ⟨fun up route risks scen opts sp today h1 h2 => ?_,
    fun _ _ _ _ _ _ => rfl, fun _ _ _ _ _ _ => rfl,
    fun _ _ _ _ _ => rfl, fun _ _ _ _ _ => rfl⟩
  simp [generate_mock_response, h1, h2]

/-- Witness for C7 at the concrete prompt `"route: berlin scores: 42 movie"`
(which contains the out-of-domain keyword `"movie"`) and a concrete stored
route/assessment. -/
theorem c7_intent_precedence_witness :
    hasSub (strLower PROMPT_ROUTE_MOVIE) "route:" = true ∧
    hasSub (strLower PROMPT_ROUTE_MOVIE) "scores:" = true ∧
    generate_mock_response "sys" PROMPT_ROUTE_MOVIE
        ⟨some WITNESS_ROUTE, some WITNESS_RISKS, none, none⟩ ⟨2024, 1, 15⟩
      = render_explain_route WITNESS_ROUTE WITNESS_RISKS
          (mkContextBlock ⟨some WITNESS_ROUTE, some WITNESS_RISKS, none, none⟩) :=
  ⟨by decide, by decide,
   c7_intent_precedence.1 PROMPT_ROUTE_MOVIE WITNESS_ROUTE WITNESS_RISKS none none
     "sys" ⟨2024, 1, 15⟩ (by decide) (by decide)⟩

/-- C8: the stressed overall is recomputed from the rounded multiplied
sub-scores with the fixed 0.35/0.30/0.25/0.10 weights, no conflict bump, rounded
and clamped; hence all-1.0 multipliers are not a pass-through: for the base
assessment Ukraine→USA by rail (conflict bump 10, overall 61.2) the stressed
overall is 51.2. -/
theorem c8_stress_not_passthrough :
    (∀ rs : RiskAssessment,
      (stress_scenario rs 1 1 1 1).overall
        = clip (round1 (round1 rs.geopolitical * 0.35 + round1 rs.climate * 0.3
            + round1 rs.logistics * 0.25 + round1 rs.cyber * 0.1)) 0 100) ∧
    (compute_route_risk "Ukraine" "USA" "rail" ⟨2024, 1, 15⟩ "Balanced"
        true).overall = 61.2 ∧
    (stress_scenario (compute_route_risk "Ukraine" "USA" "rail" ⟨2024, 1, 15⟩
        "Balanced" true) 1 1 1 1).overall = 51.2 ∧
    (stress_scenario (compute_route_risk "Ukraine" "USA" "rail" ⟨2024, 1, 15⟩
        "Balanced" true) 1 1 1 1).overall
      ≠ (compute_route_risk "Ukraine" "USA" "rail" ⟨2024, 1, 15⟩ "Balanced"
          true).overall := by
  refine ⟨fun rs => ?_, by decide, by decide, by decide⟩
  simp [stress_scenario, mul_one]

/-- C9 counterexample: with the analyzer-style prompt (containing `"route:"` and
`"scores:"`) and no stored route/assessment, the engine's output does not
contain any "run a lane first" message — that message is rendered by the UI
layer, not the response engine. -/
theorem c9_no_engine_message_counterexample :
    hasSub (strLower (generate_mock_response "You are a supply chain advisor."
        PROMPT_ANALYZER ⟨none, none, none, none⟩ ⟨2024, 3, 1⟩)) "run a lane first"
      = false := by decide

/-- C9 (amended): when the ExplainRoute context is missing, the engine falls
through to the later rules; for the analyzer-style prompt this lands on the
default executive summary.  The "Run a lane first." informational message is
produced by the calling UI layer (src/app.py lines 1081, 1118), which does not
invoke the engine in that state. -/
theorem c9_fallthrough_default_summary :
    ∀ (riskOpt : Option RiskAssessment) (scen : Option Scenario)
        (opts : Option (List OptimizerOption)) (sp : String) (today : Date),
      generate_mock_response sp PROMPT_ANALYZER ⟨none, riskOpt, scen, opts⟩ today
        = DEFAULT_EXECUTIVE_SUMMARY :=
  fun _ _ _ _ _ => rfl

/-- C10: the trailing `cargo_value` and `time_critical` parameters of
`compute_route_risk` never influence its result. -/
theorem c10_cargo_params_unused :
    ∀ (o d m : String) (dt : Date) (w : String) (ic : Bool)
      (cv1 : ℚ) (tc1 : Bool) (cv2 : ℚ) (tc2 : Bool),
      compute_route_risk o d m dt w ic cv1 tc1
        = compute_route_risk o d m dt w ic cv2 tc2 :=
  fun _ _ _ _ _ _ _ _ _ _ => rfl

end GeoClimate
